import Mathlib

/-!
Verification development for the adaptive stock-screening pipeline.

The embedding models Python floats as rationals (`ℚ`) and pandas NaN cells as
`Option ℚ`.  A price DataFrame becomes a `Frame`: a list of OHLCV bars plus
optional indicator columns (a column is `none` when it was never added to the
DataFrame, and an entry inside a column is `none` when the cell is NaN).
Division is the total rational division (`x / 0 = 0`); every place where the
source can divide by zero is either guarded in the source itself or noted in a
comment.  Positions where the Python code would raise (e.g. `iloc[-1]` on an
empty frame) are modelled by `Option`-valued lookups returning `none`; such
inputs never reach the functions in the real pipeline.

pandas' rolling sample standard deviation (used only for Bollinger bands,
whose values no verified property reads) produces irrational numbers, so the
development is parametric in that one function: `stdFn` below.
-/

/-! ### Basic list helpers (pandas primitives) -/

/-- `Series.tail n`: the last `n` elements. -/
def tailN (n : ℕ) (l : List α) : List α := l.drop (l.length - n)

/-- `iloc[-k]` (k ≥ 1): the k-th element from the end, `none` when the Python
call would raise `IndexError`. -/
def ilocNeg (l : List α) (k : ℕ) : Option α :=
  if k ≤ l.length then l[(l.length - k)]? else none

/-- Last cell of a nullable column: `none` both for an empty column (Python
raises there) and for a NaN last cell (both branches are guarded identically
by the callers). -/
def lastEntry (col : List (Option ℚ)) : Option ℚ := (col.getLast?).join

/-- `np.mean` (junk value 0 on the empty list, which `np.mean` answers with
NaN and a warning; every call site is guarded). -/
def meanQ (l : List ℚ) : ℚ := l.sum / (l.length : ℚ)

/-- `np.var`: population variance. -/
def varQ (l : List ℚ) : ℚ := meanQ (l.map (fun x => (x - meanQ l) ^ 2))

/-- Python `max(list)` / `Series.max` on a series without NaN. -/
def listMax? : List ℚ → Option ℚ
  | [] => none
  | x :: xs => some (xs.foldl max x)

/-- Python `min(list)` / `Series.min` on a series without NaN. -/
def listMin? : List ℚ → Option ℚ
  | [] => none
  | x :: xs => some (xs.foldl min x)

/-- `Series.max` on a nullable column (pandas skips NaN cells). -/
def seriesMax? (col : List (Option ℚ)) : Option ℚ := listMax? (col.filterMap id)

/-- `Series.min` on a nullable column (pandas skips NaN cells). -/
def seriesMin? (col : List (Option ℚ)) : Option ℚ := listMin? (col.filterMap id)

/-- `Series.diff()`: first entry NaN, then successive differences. -/
def diffO (l : List ℚ) : List (Option ℚ) :=
  (List.range l.length).map (fun i =>
    if i = 0 then none else some (l.getD i 0 - l.getD (i - 1) 0))

/-- `Series.rolling(window=w).mean()`: the first `w-1` entries are NaN, entry
`i` is the mean of the `w` values ending at `i`. -/
def rollingMean (w : ℕ) (l : List ℚ) : List (Option ℚ) :=
  (List.range l.length).map (fun i =>
    if i + 1 < w then none else some (meanQ ((l.take (i + 1)).drop (i + 1 - w))))

/-- Python `sorted(l)`. -/
def sortedAsc (l : List ℚ) : List ℚ := l.insertionSort (· ≤ ·)

/-- Python `sorted(l, reverse=True)`. -/
def sortedDesc (l : List ℚ) : List ℚ := l.insertionSort (fun a b => b ≤ a)

/-- `Series.nlargest(k)`: the k largest values, descending. -/
def nlargest (k : ℕ) (l : List ℚ) : List ℚ := (sortedDesc l).take k

/-- `Series.nsmallest(k)`: the k smallest values, ascending. -/
def nsmallest (k : ℕ) (l : List ℚ) : List ℚ := (sortedAsc l).take k

/-- Python `int(x)`: truncation toward zero. -/
def truncQ (q : ℚ) : ℤ := if 0 ≤ q then ⌊q⌋ else ⌈q⌉

/-! ### Data model: bars and frames -/

/-- One daily OHLCV bar (the Open column is never read by the pipeline and is
omitted). -/
structure Bar where
  high : ℚ
  low : ℚ
  close : ℚ
  volume : ℚ
deriving DecidableEq

instance : Inhabited Bar := ⟨⟨0, 0, 0, 0⟩⟩

/-- A pandas DataFrame of bars plus the indicator columns that
`calculate_all_indicators` may add.  An absent column is `none`; a present
column is a list of nullable cells aligned with `bars`. -/
structure Frame where
  bars : List Bar
  rsi : Option (List (Option ℚ))
  macd : Option (List (Option ℚ))
  macdSignal : Option (List (Option ℚ))
  macdHist : Option (List (Option ℚ))
  sma20 : Option (List (Option ℚ))
  sma50 : Option (List (Option ℚ))
  volumeSma20 : Option (List (Option ℚ))
  atr : Option (List (Option ℚ))
  bbUpper : Option (List (Option ℚ))
  bbMiddle : Option (List (Option ℚ))
  bbLower : Option (List (Option ℚ))
deriving DecidableEq

/-- A raw price history: no indicator columns yet. -/
def rawFrame (bars : List Bar) : Frame :=
  ⟨bars, none, none, none, none, none, none, none, none, none, none, none⟩

/-! ### src/core/technical_analysis.py -/

/-- `calculate_rsi` helper: `delta.where(delta > 0, 0)` (the NaN first delta
compares false and becomes 0). -/
def gainSeries (prices : List ℚ) : List ℚ :=
  (diffO prices).map (fun d =>
    match d with
    | some x => if 0 < x then x else 0
    | none => 0)

/-- `calculate_rsi` helper: `-delta.where(delta < 0, 0)`. -/
def lossSeries (prices : List ℚ) : List ℚ :=
  (diffO prices).map (fun d =>
    match d with
    | some x => if x < 0 then -x else 0
    | none => 0)

/-- `calculate_rsi(prices, period)`: plain rolling-mean RSI,
`100 - 100/(1 + avg_gain/avg_loss)`.  A zero average loss makes the Python
value inf/NaN; rational division then gives the junk value `0`, and the
bound theorem for RSI therefore assumes a positive average loss. -/
def calculate_rsi (period : ℕ) (prices : List ℚ) : List (Option ℚ) :=
  List.zipWith (fun g? l? =>
      match g?, l? with
      | some g, some l => some (100 - 100 / (1 + g / l))
      | _, _ => none)
    (rollingMean period (gainSeries prices)) (rollingMean period (lossSeries prices))

/-- `ewm(span, adjust=False).mean()` tail recursion: `e_i = α·p_i + (1-α)·e_{i-1}`. -/
def emaFrom (alpha : ℚ) (prev : ℚ) : List ℚ → List ℚ
  | [] => []
  | p :: ps =>
    let e := alpha * p + (1 - alpha) * prev
    e :: emaFrom alpha e ps

/-- `ewm(span=n, adjust=False).mean()` with `α = 2/(n+1)` and `e_0 = p_0`. -/
def ewmMean (span : ℕ) (l : List ℚ) : List ℚ :=
  match l with
  | [] => []
  | p :: ps => p :: emaFrom (2 / ((span : ℚ) + 1)) p ps

/-- `calculate_macd(prices, 12, 26, 9)`: (macd, signal, histogram) lines. -/
def calculate_macd (prices : List ℚ) : List ℚ × List ℚ × List ℚ :=
  let exp1 := ewmMean 12 prices
  let exp2 := ewmMean 26 prices
  let macd := List.zipWith (fun a b => a - b) exp1 exp2
  let signal := ewmMean 9 macd
  let histogram := List.zipWith (fun a b => a - b) macd signal
  (macd, signal, histogram)

/-- `calculate_atr` helper: the true range row-max; at row 0 the two
prev-close terms are NaN and pandas' row-wise max skips them. -/
def trueRangeList (bars : List Bar) : List ℚ :=
  (List.range bars.length).map (fun i =>
    let b := bars.getD i default
    if i = 0 then b.high - b.low
    else
      let pc := (bars.getD (i - 1) default).close
      max (b.high - b.low) (max |b.high - pc| |b.low - pc|))

/-- `calculate_atr(df, period)`: rolling mean of the true range. -/
def calculate_atr (period : ℕ) (bars : List Bar) : List (Option ℚ) :=
  rollingMean period (trueRangeList bars)

/-- Cell-wise `middle + std * c` (NaN-propagating). -/
def addMulO (m s : Option ℚ) (c : ℚ) : Option ℚ :=
  match m, s with
  | some a, some b => some (a + b * c)
  | _, _ => none

/-- `calculate_bollinger_bands(prices, 20, 2)`.  The rolling sample standard
deviation is the parameter `stdFn` (its values are irrational square roots;
no verified property reads the bands, so every theorem holds for any
`stdFn`). -/
def calculate_bollinger_bands (stdFn : ℕ → List ℚ → List (Option ℚ))
    (prices : List ℚ) : List (Option ℚ) × List (Option ℚ) × List (Option ℚ) :=
  let middle := rollingMean 20 prices
  let std := stdFn 20 prices
  let upper := List.zipWith (fun m s => addMulO m s 2) middle std
  let lower := List.zipWith (fun m s => addMulO m s (-2)) middle std
  (upper, middle, lower)

/-- `calculate_all_indicators(hist_data)`: returns the frame unchanged when it
has fewer than 50 bars, otherwise adds every indicator column. -/
def calculate_all_indicators (stdFn : ℕ → List ℚ → List (Option ℚ))
    (hist : Frame) : Frame :=
  if hist.bars.length < 50 then hist
  else
    let closes := hist.bars.map Bar.close
    let vols := hist.bars.map Bar.volume
    let m := calculate_macd closes
    let bb := calculate_bollinger_bands stdFn closes
    { hist with
      rsi := some (calculate_rsi 14 closes)
      macd := some (m.1.map some)
      macdSignal := some (m.2.1.map some)
      macdHist := some (m.2.2.map some)
      sma20 := some (rollingMean 20 closes)
      sma50 := some (rollingMean 50 closes)
      volumeSma20 := some (rollingMean 20 vols)
      atr := some (calculate_atr 14 hist.bars)
      bbUpper := some bb.1
      bbMiddle := some bb.2.1
      bbLower := some bb.2.2 }

/-- `check_macd_crossover(df, lookback_days)`: scans the last `lookback+1`
rows for the first bullish crossover (prev MACD ≤ prev signal, current MACD >
current signal), returning `(found, days_ago)`. -/
def check_macd_crossover (df : Frame) (lookback : ℕ) : Bool × Option ℕ :=
  match df.macd, df.macdSignal with
  | some mc, some msc =>
    let pairs := List.zip (tailN (lookback + 1) mc) (tailN (lookback + 1) msc)
    if pairs.length < 2 then (false, none)
    else
      match (List.range (pairs.length - 1)).findSome? (fun i =>
          match pairs[i]?, pairs[i + 1]? with
          | some (some pm, some ps), some (some cm, some cs) =>
            if pm ≤ ps ∧ cs < cm then some (pairs.length - i - 2) else none
          | _, _ => none) with
      | some d => (true, some d)
      | none => (false, none)
  | _, _ => (false, none)

/-- `is_macd_bullish(df)`. -/
def is_macd_bullish (df : Frame) : Bool :=
  match df.macd, df.macdSignal with
  | some mc, some msc =>
    match lastEntry mc, lastEntry msc with
    | some m, some s => decide (s < m)
    | _, _ => false
  | _, _ => false

/-- `is_histogram_expanding(df, lookback)`. -/
def is_histogram_expanding (df : Frame) (lookback : ℕ) : Bool :=
  match df.macdHist with
  | some hc =>
    let h := tailN lookback hc
    if h.length < 2 ∨ h.any (fun x => x.isNone) then false
    else
      match ilocNeg h 1, ilocNeg h 2 with
      | some (some a), some (some b) => decide (b < a)
      | _, _ => false
  | none => false

/-- `calculate_momentum(df, period)`: percentage move of the close over
`period` bars, 0 when the frame is too short.  (The guard makes the indexing
total; a zero past close is an inf/NaN in Python and junk 0 here — no claim
depends on that cell.) -/
def calculate_momentum (df : Frame) (period : ℕ) : ℚ :=
  if df.bars.length < period + 1 then 0
  else
    let closes := df.bars.map Bar.close
    let current := (closes.getLast?).getD 0
    let past := (ilocNeg closes (period + 1)).getD 0
    ((current - past) / past) * 100

/-- `find_support_resistance(df, lookback)` result. -/
structure SupportResistance where
  support : ℚ
  resistance : ℚ
  support_levels : List ℚ
  resistance_levels : List ℚ
deriving DecidableEq

/-- `find_support_resistance(df, lookback=20)`: window extrema plus the top-5
highs above / bottom-5 lows below the latest close, sorted.  On an empty
frame the Python call raises `IndexError` (conflated here with junk values:
unreachable in the pipeline). -/
def find_support_resistance (df : Frame) (lookback : ℕ) : SupportResistance :=
  let recent := tailN lookback df.bars
  let support := (listMin? (recent.map Bar.low)).getD 0
  let resistance := (listMax? (recent.map Bar.high)).getD 0
  let current_price := ((df.bars.map Bar.close).getLast?).getD 0
  let high_points := nlargest 5 (recent.map Bar.high)
  let low_points := nsmallest 5 (recent.map Bar.low)
  let resistance_levels := high_points.filter (fun r => decide (current_price < r))
  let support_levels := low_points.filter (fun s => decide (s < current_price))
  { support := support
    resistance := resistance
    support_levels := sortedDesc support_levels
    resistance_levels := sortedAsc resistance_levels }

/-- `calculate_volatility_percent(df, period=20)`: latest ATR as a percentage
of the latest close. -/
def calculate_volatility_percent (df : Frame) (period : ℕ) : ℚ :=
  match df.atr with
  | none => 0
  | some atrCol =>
    if df.bars.length < period then 0
    else
      match lastEntry atrCol, (df.bars.map Bar.close).getLast? with
      | some atr, some cp => if cp = 0 then 0 else (atr / cp) * 100
      | _, _ => 0

/-! ### src/config/settings.py -/

def MIN_PRICE : ℚ := 5
def MAX_PRICE : ℚ := 500
def MIN_VOLUME : ℚ := 500000
def MIN_MARKET_CAP : ℚ := 500000000
def MIN_VOLATILITY : ℚ := 3
def MACD_WEIGHT : ℚ := 25 / 100
def RSI_WEIGHT : ℚ := 20 / 100
def VOLUME_WEIGHT : ℚ := 20 / 100
def BREAKOUT_WEIGHT : ℚ := 20 / 100
def MOMENTUM_WEIGHT : ℚ := 15 / 100
def TIER_1_MIN_RETURN : ℚ := 15
def TIER_1_MIN_CONFIDENCE : ℚ := 75
def TIER_2_MIN_RETURN : ℚ := 8
def TIER_2_MIN_CONFIDENCE : ℚ := 60
def CAPITAL_PER_TRADE : ℚ := 1000
def MAX_LOSS_PERCENT : ℚ := 10

/-! ### src/core/scoring_engine.py -/

/-- `calculate_macd_score(df)`: crossover +40, above signal +20, histogram
expanding +20, plus up to +20 of trend strength, capped at 100. -/
def calculate_macd_score (df : Frame) : ℚ :=
  match df.macd with
  | none => 0
  | some mc =>
    let s1 := if (check_macd_crossover df 3).1 then (40 : ℚ) else 0
    let s2 := if is_macd_bullish df then (20 : ℚ) else 0
    let s3 := if is_histogram_expanding df 3 then (20 : ℚ) else 0
    let s4 :=
      match lastEntry mc with
      | some v =>
        if 0 < v then
          match seriesMax? (tailN 20 mc), seriesMin? (tailN 20 mc) with
          | some mx, some mn =>
            if 0 < mx - mn then min ((v / (mx - mn)) * 20) 20 else 0
          | _, _ => 0
        else 0
      | none => 0
    min (s1 + s2 + s3 + s4) 100

/-- `calculate_rsi_score(df)`: momentum zone +50/+25, rising vs. `iloc[-3]`
+25, not overbought +25/+10, capped at 100. -/
def calculate_rsi_score (df : Frame) : ℚ :=
  match df.rsi with
  | none => 0
  | some rc =>
    match lastEntry rc with
    | none => 0
    | some rsi =>
      let s1 := if 45 ≤ rsi ∧ rsi ≤ 65 then (50 : ℚ)
                else if (35 ≤ rsi ∧ rsi < 45) ∨ (65 < rsi ∧ rsi ≤ 70) then 25 else 0
      let s2 := if 3 ≤ df.bars.length then
                  match ilocNeg rc 3 with
                  | some (some prev) => if prev < rsi then (25 : ℚ) else 0
                  | _ => 0
                else 0
      let s3 := if rsi < 70 then (25 : ℚ) else if rsi < 80 then 10 else 0
      min (s1 + s2 + s3) 100

/-- `calculate_volume_score(df)`: volume-ratio points, rising-volume points,
and consistency points, capped at 100. -/
def calculate_volume_score (df : Frame) : ℚ :=
  match df.volumeSma20 with
  | none => 0
  | some vc =>
    let vols := df.bars.map Bar.volume
    match vols.getLast?, lastEntry vc with
    | some current_vol, some avg_vol =>
      if avg_vol = 0 then 0
      else
        let ratio := current_vol / avg_vol
        let s1 := if 2 < ratio then (50 : ℚ)
                  else if 3 / 2 < ratio then 35
                  else if 1 < ratio then 20 else 0
        let recent := tailN 5 vols
        let s2 := if 3 ≤ recent.length then
                    if (ilocNeg recent 3).getD 0 < (ilocNeg recent 1).getD 0 then (30 : ℚ)
                    else if (ilocNeg recent 2).getD 0 < (ilocNeg recent 1).getD 0 then 15 else 0
                  else 0
        let l5v := tailN 5 vols
        let l5a := tailN 5 vc
        let s3 := if l5v.length = l5a.length then
                    let cnt := (List.zip l5v l5a).countP (fun p =>
                      match p.2 with
                      | some a => decide (a < p.1)
                      | none => false)
                    if 4 ≤ cnt then (20 : ℚ) else if 3 ≤ cnt then 10 else 0
                  else 0
        min (s1 + s2 + s3) 100
    | _, _ => 0

/-- `calculate_breakout_score(df, current_price)`: 20-day-high proximity,
moving averages, and support-distance points, capped at 100. -/
def calculate_breakout_score (df : Frame) (current_price : ℚ) : ℚ :=
  let recent := tailN 20 df.bars
  let s1 := match listMax? (recent.map Bar.high) with
            | some high_20 =>
              if high_20 * (99 / 100) ≤ current_price then (40 : ℚ)
              else if high_20 * (97 / 100) ≤ current_price then 20 else 0
            | none => 0
  let ma1 := match df.sma20 with
             | some c =>
               match lastEntry c with
               | some v => if v < current_price then (15 : ℚ) else 0
               | none => 0
             | none => 0
  let ma2 := match df.sma50 with
             | some c =>
               match lastEntry c with
               | some v => if v < current_price then (15 : ℚ) else 0
               | none => 0
             | none => 0
  let levels := find_support_resistance df 20
  let s3 := match levels.support_levels with
            | [] => 0
            | nearest_support :: _ =>
              let dist := ((current_price - nearest_support) / current_price) * 100
              if 5 ≤ dist ∧ dist ≤ 10 then (30 : ℚ)
              else if 3 ≤ dist ∧ dist ≤ 15 then 20
              else if 2 < dist then 10 else 0
  min (s1 + ma1 + ma2 + s3) 100

/-- `calculate_momentum_score` helper: the higher-highs loop (each high at
least 98% of the previous one). -/
def isHigherHighs : List ℚ → Bool
  | [] => true
  | [_] => true
  | a :: b :: rest => if b < a * (98 / 100) then false else isHigherHighs (b :: rest)

/-- `calculate_momentum_score(df)`: 5-day-return band points, acceleration
points, and higher-highs points, capped at 100. -/
def calculate_momentum_score (df : Frame) : ℚ :=
  let momentum_5d := calculate_momentum df 5
  let s1 := if 5 ≤ momentum_5d ∧ momentum_5d ≤ 15 then (50 : ℚ)
            else if (3 ≤ momentum_5d ∧ momentum_5d < 5) ∨ (15 < momentum_5d ∧ momentum_5d ≤ 20) then 35
            else if 1 ≤ momentum_5d ∧ momentum_5d < 3 then 20 else 0
  let momentum_3d := calculate_momentum df 3
  let s2 := if momentum_5d * (6 / 10) < momentum_3d then (25 : ℚ)
            else if 0 < momentum_3d then 10 else 0
  let s3 := if 5 ≤ df.bars.length then
              let highs := tailN 5 (df.bars.map Bar.high)
              if isHigherHighs highs then (25 : ℚ)
              else if highs.headD 0 < (highs.getLast?).getD 0 then 10 else 0
            else 0
  min (s1 + s2 + s3) 100

/-- The five sub-scores plus the weighted overall score. -/
structure Scores where
  macd_score : ℚ
  rsi_score : ℚ
  volume_score : ℚ
  breakout_score : ℚ
  momentum_score : ℚ
  overall_score : ℚ
deriving DecidableEq

/-- `calculate_overall_score(stock_data, df)`. -/
def calculate_overall_score (current_price : ℚ) (df : Frame) : Scores :=
  let m := calculate_macd_score df
  let r := calculate_rsi_score df
  let v := calculate_volume_score df
  let b := calculate_breakout_score df current_price
  let mo := calculate_momentum_score df
  { macd_score := m
    rsi_score := r
    volume_score := v
    breakout_score := b
    momentum_score := mo
    overall_score := m * MACD_WEIGHT + r * RSI_WEIGHT + v * VOLUME_WEIGHT
      + b * BREAKOUT_WEIGHT + mo * MOMENTUM_WEIGHT }

/-! ### src/core/return_estimator.py -/

/-- `calculate_historical_volatility` helper: one rolling 5-bar high-low range
as a percentage of the window midpoint. -/
def rangePct5 (w : List Bar) : ℚ :=
  let high := (listMax? (w.map Bar.high)).getD 0
  let low := (listMin? (w.map Bar.low)).getD 0
  let mid := (high + low) / 2
  ((high - low) / mid) * 100

/-- `calculate_historical_volatility(df, lookback=20)`: the average of the
rolling 5-bar ranges over the trailing window, 0 when no window fits. -/
def calculate_historical_volatility (df : Frame) (lookback : ℕ) : ℚ :=
  let recent := tailN lookback df.bars
  let avg_ranges := (List.range (recent.length - 5)).map
    (fun i => rangePct5 ((recent.drop i).take 5))
  if avg_ranges = [] then 0 else meanQ avg_ranges

/-- `calculate_technical_target(df, current_price)`: percentage distance to
the closest resistance above the latest close (0 when that resistance does
not exceed the quote price). -/
def calculate_technical_target (df : Frame) (current_price : ℚ) : ℚ :=
  let levels := find_support_resistance df 20
  let resistance := match levels.resistance_levels with
                    | [] => levels.resistance
                    | r :: _ => r
  if resistance ≤ current_price then 0
  else ((resistance - current_price) / current_price) * 100

/-- `calculate_momentum_projection(df)`: half of the 5-day momentum, only
when positive. -/
def calculate_momentum_projection (df : Frame) : ℚ :=
  let current_momentum := calculate_momentum df 5
  if current_momentum ≤ 0 then 0 else current_momentum * (1 / 2)

/-- `calculate_technical_strength(df)`: MACD above signal +15, RSI in
[45,70] +15, close above SMA-20 +10. -/
def calculate_technical_strength (df : Frame) : ℚ :=
  let s1 := match df.macd, df.macdSignal with
            | some mc, some msc =>
              match lastEntry mc, lastEntry msc with
              | some m, some s => if s < m then (15 : ℚ) else 0
              | _, _ => 0
            | _, _ => 0
  let s2 := match df.rsi with
            | some rc =>
              match lastEntry rc with
              | some r => if 45 ≤ r ∧ r ≤ 70 then (15 : ℚ) else 0
              | none => 0
            | none => 0
  let s3 := match df.sma20 with
            | some sc =>
              match lastEntry sc, (df.bars.map Bar.close).getLast? with
              | some s, some c => if s < c then (10 : ℚ) else 0
              | _, _ => 0
            | none => 0
  s1 + s2 + s3

/-- `calculate_volume_confidence(df)`: volume-ratio points (+20/+10) plus a
volume-trend point (+10). -/
def calculate_volume_confidence (df : Frame) : ℚ :=
  match df.volumeSma20 with
  | none => 0
  | some vc =>
    let vols := df.bars.map Bar.volume
    match vols.getLast?, lastEntry vc with
    | some current_vol, some avg_vol =>
      if avg_vol = 0 then 0
      else
        let ratio := current_vol / avg_vol
        let s1 := if 3 / 2 < ratio then (20 : ℚ) else if 1 < ratio then 10 else 0
        let recent := tailN 5 vols
        let s2 := if 3 ≤ recent.length then
                    if (ilocNeg recent 3).getD 0 < (ilocNeg recent 1).getD 0 then (10 : ℚ) else 0
                  else 0
        s1 + s2
    | _, _ => 0

/-- `calculate_confidence_score(hist, tech, mom, df)`: agreement points from
the relative variance of the three signals, plus technical strength and
volume confirmation, capped at 100. -/
def calculate_confidence_score (hist_ret tech_ret mom_ret : ℚ) (df : Frame) : ℚ :=
  let returns := [hist_ret, tech_ret, mom_ret]
  let avg_return := meanQ returns
  if avg_return = 0 then 0
  else
    let variance := varQ returns
    let relative_variance := if 0 < avg_return then variance / avg_return ^ 2 else 1
    let agreement_score := if relative_variance < 1 / 10 then (30 : ℚ)
                           else if relative_variance < 3 / 10 then 20 else 10
    min (agreement_score + calculate_technical_strength df + calculate_volume_confidence df) 100

/-- `estimate_days_to_target` helper: `Series.pct_change().dropna()` (only the
first NaN is dropped; a division by a zero close is inf in numpy and the junk
value 0 here — either way the entry count matches). -/
def pctChangeDropna (l : List ℚ) : List ℚ :=
  (List.range l.length).filterMap (fun i =>
    if i = 0 then none
    else some ((l.getD i 0 - l.getD (i - 1) 0) / l.getD (i - 1) 0))

/-- `estimate_days_to_target(df, target_return)`: 7 when no daily return is
computable, 10 when the trailing average daily return is not positive, else
`target/avg` truncated and clamped into [5, 10]. -/
def estimate_days_to_target (df : Frame) (target_return : ℚ) : ℤ :=
  let recent := tailN 10 (df.bars.map Bar.close)
  let daily_returns := pctChangeDropna recent
  if daily_returns = [] then 7
  else
    let avg_daily_return_pct := meanQ daily_returns * 100
    if avg_daily_return_pct ≤ 0 then 10
    else max 5 (min 10 (truncQ (target_return / avg_daily_return_pct)))

/-- `estimate_return_potential(stock_data, df)`: the weighted combination of
the historical / technical / momentum signals, the confidence score, and the
days-to-target estimate; `(0.0, 0.0, 10)` under 30 bars. -/
def estimate_return_potential (current_price : ℚ) (df : Frame) : ℚ × ℚ × ℤ :=
  if df.bars.length < 30 then (0, 0, 10)
  else
    let historical_return := calculate_historical_volatility df 20
    let technical_return := calculate_technical_target df current_price
    let momentum_return := calculate_momentum_projection df
    let estimated_return := historical_return * (4 / 10) + technical_return * (3 / 10)
      + momentum_return * (3 / 10)
    (estimated_return,
     calculate_confidence_score historical_return technical_return momentum_return df,
     estimate_days_to_target df estimated_return)

/-! ### src/core/risk_calculator.py -/

/-- `calculate_stop_loss(entry_price, max_loss_percent)`. -/
def calculate_stop_loss (entry_price max_loss_percent : ℚ) : ℚ :=
  entry_price * (1 - max_loss_percent / 100)

/-- `calculate_target_price(entry_price, target_return_percent)`. -/
def calculate_target_price (entry_price target_return_percent : ℚ) : ℚ :=
  entry_price * (1 + target_return_percent / 100)

/-- `calculate_position_size(entry_price, capital)`: whole shares and the
position value, `(0, 0.0)` for a non-positive entry price. -/
def calculate_position_size (entry_price capital : ℚ) : ℤ × ℚ :=
  if entry_price ≤ 0 then (0, 0)
  else
    let shares := truncQ (capital / entry_price)
    (shares, (shares : ℚ) * entry_price)

/-- `calculate_risk_reward(entry, target, stop)`: gain over loss, 0 when the
potential loss is not positive. -/
def calculate_risk_reward (entry_price target_price stop_price : ℚ) : ℚ :=
  let potential_gain := target_price - entry_price
  let potential_loss := entry_price - stop_price
  if potential_loss ≤ 0 then 0 else potential_gain / potential_loss

/-- `calculate_profit_loss(entry, target, stop, shares)`. -/
def calculate_profit_loss (entry_price target_price stop_price : ℚ) (shares : ℤ) : ℚ × ℚ :=
  ((target_price - entry_price) * (shares : ℚ), (entry_price - stop_price) * (shares : ℚ))

/-- `calculate_adjusted_stop_loss(entry, support_levels, max_loss_percent)`:
the default stop unless a support level sits below the entry, in which case
the stop moves to 1% below the nearest such support but never below the
default stop. -/
def calculate_adjusted_stop_loss (entry_price : ℚ) (support_levels : List ℚ)
    (max_loss_percent : ℚ) : ℚ :=
  let default_stop := calculate_stop_loss entry_price max_loss_percent
  match support_levels with
  | [] => default_stop
  | _ =>
    let valid_supports := support_levels.filter (fun s => decide (s < entry_price))
    match listMax? valid_supports with
    | none => default_stop
    | some nearest_support =>
      let adjusted_stop := nearest_support * (99 / 100)
      if adjusted_stop < default_stop then default_stop else adjusted_stop

/-! ### src/models/stock.py, src/models/trade.py

The Python dataclass `Stock` initialises the later-stage fields to `None` and
the pipeline always assigns them before reading them; the numeric score and
estimate fields are therefore modelled as plain rationals initialised to 0,
while the latest-indicator fields keep `Option` (they stay absent when a
column is missing or its last cell is NaN). -/

structure Stock where
  symbol : String
  name : String
  current_price : ℚ
  sector : String
  market_cap : ℚ
  volume : ℚ
  avg_volume : ℚ
  history : Frame
  rsi : Option ℚ
  macd : Option ℚ
  macd_signal : Option ℚ
  macd_histogram : Option ℚ
  sma_20 : Option ℚ
  sma_50 : Option ℚ
  atr : Option ℚ
  macd_score : ℚ
  rsi_score : ℚ
  volume_score : ℚ
  breakout_score : ℚ
  momentum_score : ℚ
  overall_score : ℚ
  estimated_return : ℚ
  confidence : ℚ
  days_to_target : ℤ
deriving DecidableEq

/-- `Stock.passes_basic_filters`. -/
def passes_basic_filters (st : Stock) (min_price max_price min_volume min_market_cap : ℚ) : Bool :=
  if st.current_price < min_price ∨ max_price < st.current_price then false
  else if st.volume < min_volume then false
  else if st.market_cap < min_market_cap then false
  else true

/-- The trade opportunity produced by `_create_trade_from_stock`.  The two
formatted presentation strings of the source (`entry_strategy` and the
dollar-formatted support levels) are modelled by their numeric content. -/
structure Trade where
  symbol : String
  name : String
  entry_price : ℚ
  target_price : ℚ
  stop_price : ℚ
  estimated_return : ℚ
  confidence : ℚ
  days_to_target : ℤ
  score : ℚ
  sector : String
  shares : ℤ
  position_value : ℚ
  target_profit : ℚ
  max_loss : ℚ
  risk_reward_ratio : ℚ
  current_price : ℚ
  rsi : Option ℚ
  macd_score : ℚ
  volume_score : ℚ
  breakout_score : ℚ
  momentum_score : ℚ
  entry_range_low : ℚ
  entry_range_high : ℚ
  support_levels : List ℚ
deriving DecidableEq

/-! ### src/core/screener.py -/

/-- The frozen payload of `DataFetcher.get_stock_data` (the unused `info`
dict is omitted). -/
structure StockData where
  symbol : String
  name : String
  current_price : ℚ
  sector : String
  market_cap : ℚ
  volume : ℚ
  avg_volume : ℚ
  history : Frame
deriving DecidableEq

/-- The `Stock(...)` constructor call in `_fetch_and_filter`. -/
def stockOfData (d : StockData) : Stock :=
  { symbol := d.symbol
    name := d.name
    current_price := d.current_price
    sector := d.sector
    market_cap := d.market_cap
    volume := d.volume
    avg_volume := d.avg_volume
    history := d.history
    rsi := none, macd := none, macd_signal := none, macd_histogram := none
    sma_20 := none, sma_50 := none, atr := none
    macd_score := 0, rsi_score := 0, volume_score := 0
    breakout_score := 0, momentum_score := 0, overall_score := 0
    estimated_return := 0, confidence := 0, days_to_target := 0 }

/-- The symbol-keyed stock-data cache (`Cache` with keys `stock_<symbol>`;
the key construction is injective in the symbol, so the model keys entries
by the symbol itself).  Prepending models last-writer-wins. -/
def ScreenCache := List (String × StockData)

def cacheGet (c : ScreenCache) (k : String) : Option StockData :=
  (List.find? (fun p => p.1 == k) c).map Prod.snd

def cacheSet (c : ScreenCache) (k : String) (v : StockData) : ScreenCache :=
  (k, v) :: c

/-- The per-symbol filter chain of `_fetch_and_filter`: basic filters,
minimum ATR volatility, and the 50-day-SMA downtrend guard. -/
def passesStage1 (stdFn : ℕ → List ℚ → List (Option ℚ)) (st : Stock) : Bool :=
  if ¬ passes_basic_filters st MIN_PRICE MAX_PRICE MIN_VOLUME MIN_MARKET_CAP then false
  else
    let df := calculate_all_indicators stdFn st.history
    if calculate_volatility_percent df 20 < MIN_VOLATILITY then false
    else
      match df.sma50 with
      | some col =>
        match lastEntry col with
        | some sma_50 => decide (sma_50 ≤ st.current_price)
        | none => true
      | none => true

/-- One accepted-or-rejected step of stage 1. -/
def stage1Cons (stdFn : ℕ → List ℚ → List (Option ℚ)) (d : StockData)
    (l : List Stock) : List Stock :=
  let st := stockOfData d
  if passesStage1 stdFn st then st :: l else l

/-- `AdaptiveScreener._fetch_and_filter`: consult the cache, fetch and store
on a miss, skip symbols without data, and keep the stocks that pass the
stage-1 filters.  Returns the surviving stocks and the updated cache. -/
def _fetch_and_filter (stdFn : ℕ → List ℚ → List (Option ℚ))
    (fetch : String → Option StockData) :
    ScreenCache → List String → List Stock × ScreenCache
  | c, [] => ([], c)
  | c, sym :: rest =>
    match cacheGet c sym with
    | some d =>
      let r := _fetch_and_filter stdFn fetch c rest
      (stage1Cons stdFn d r.1, r.2)
    | none =>
      match fetch sym with
      | some d =>
        let r := _fetch_and_filter stdFn fetch (cacheSet c sym d) rest
        (stage1Cons stdFn d r.1, r.2)
      | none => _fetch_and_filter stdFn fetch c rest

/-- Cache-free reference semantics of stage 1 (what a run on a consistent
cache computes). -/
def fetchPure (stdFn : ℕ → List ℚ → List (Option ℚ))
    (fetch : String → Option StockData) : List String → List Stock
  | [] => []
  | sym :: rest =>
    match fetch sym with
    | some d => stage1Cons stdFn d (fetchPure stdFn fetch rest)
    | none => fetchPure stdFn fetch rest

/-- The per-stock body of `_analyze_and_score`: recompute the indicators,
copy the latest indicator values onto the stock (the source copies each one
under its column-presence check), store the scores, and replace the history
with the indicator frame. -/
def scoreStock (stdFn : ℕ → List ℚ → List (Option ℚ)) (st : Stock) : Stock :=
  let df := calculate_all_indicators stdFn st.history
  let scores := calculate_overall_score st.current_price df
  { st with
    history := df
    rsi := match df.rsi with | some c => lastEntry c | none => st.rsi
    macd := match df.macd with | some c => lastEntry c | none => st.macd
    macd_signal := match df.macdSignal with | some c => lastEntry c | none => st.macd_signal
    macd_histogram := match df.macdHist with | some c => lastEntry c | none => st.macd_histogram
    sma_20 := match df.sma20 with | some c => lastEntry c | none => st.sma_20
    sma_50 := match df.sma50 with | some c => lastEntry c | none => st.sma_50
    atr := match df.atr with | some c => lastEntry c | none => st.atr
    macd_score := scores.macd_score
    rsi_score := scores.rsi_score
    volume_score := scores.volume_score
    breakout_score := scores.breakout_score
    momentum_score := scores.momentum_score
    overall_score := scores.overall_score }

/-- `AdaptiveScreener._analyze_and_score` (the per-symbol exception path is
unreachable for stocks that passed stage 1, which guarantees ≥ 50 bars). -/
def _analyze_and_score (stdFn : ℕ → List ℚ → List (Option ℚ))
    (stocks : List Stock) : List Stock :=
  stocks.map (scoreStock stdFn)

/-- `AdaptiveScreener._estimate_returns`. -/
def _estimate_returns (stocks : List Stock) : List Stock :=
  stocks.map (fun st =>
    let e := estimate_return_potential st.current_price st.history
    { st with estimated_return := e.1, confidence := e.2.1, days_to_target := e.2.2 })

/-- The Tier-1 filter of `_categorize_and_rank`. -/
def tier1Filter (stocks : List Stock) : List Stock :=
  stocks.filter (fun s =>
    decide (TIER_1_MIN_RETURN ≤ s.estimated_return ∧ TIER_1_MIN_CONFIDENCE ≤ s.confidence))

/-- The Tier-2 filter of `_categorize_and_rank`. -/
def tier2Filter (stocks : List Stock) : List Stock :=
  stocks.filter (fun s =>
    decide (TIER_2_MIN_RETURN ≤ s.estimated_return ∧ s.estimated_return < TIER_1_MIN_RETURN
      ∧ TIER_2_MIN_CONFIDENCE ≤ s.confidence))

/-- `list.sort(key=..., reverse=True)`: Python's sort is stable, which a
stable insertion sort models exactly (equal keys keep scan order). -/
def sortByScoreDesc (l : List Stock) : List Stock :=
  l.insertionSort (fun a b => b.overall_score ≤ a.overall_score)

/-- The tier-selection logic of `_categorize_and_rank`: the sorted Tier-1
top 5 when Tier-1 has at least 3 members, else the sorted Tier-2 top 5 when
Tier-2 has at least 3 members, else the empty Tier 3. -/
def categorizeSelect (stocks : List Stock) : ℕ × List Stock :=
  let tier_1_stocks := sortByScoreDesc (tier1Filter stocks)
  let tier_2_stocks := sortByScoreDesc (tier2Filter stocks)
  if 3 ≤ tier_1_stocks.length then (1, tier_1_stocks.take 5)
  else if 3 ≤ tier_2_stocks.length then (2, tier_2_stocks.take 5)
  else (3, [])

/-- `AdaptiveScreener._create_trade_from_stock`: stop/target/position math;
`None` when the position size rounds to zero shares. -/
def _create_trade_from_stock (st : Stock) : Option Trade :=
  let entry_price := st.current_price
  let target_price := calculate_target_price entry_price st.estimated_return
  let stop0 := calculate_stop_loss entry_price MAX_LOSS_PERCENT
  let levels := find_support_resistance st.history 20
  let support_levels := levels.support_levels
  let stop_price := match support_levels with
                    | [] => stop0
                    | _ => max stop0 (calculate_adjusted_stop_loss entry_price support_levels MAX_LOSS_PERCENT)
  let ps := calculate_position_size entry_price CAPITAL_PER_TRADE
  if ps.1 = 0 then none
  else
    let pl := calculate_profit_loss entry_price target_price stop_price ps.1
    some
      { symbol := st.symbol
        name := st.name
        entry_price := entry_price
        target_price := target_price
        stop_price := stop_price
        estimated_return := st.estimated_return
        confidence := st.confidence
        days_to_target := st.days_to_target
        score := st.overall_score
        sector := st.sector
        shares := ps.1
        position_value := ps.2
        target_profit := pl.1
        max_loss := pl.2
        risk_reward_ratio := calculate_risk_reward entry_price target_price stop_price
        current_price := st.current_price
        rsi := st.rsi
        macd_score := st.macd_score
        volume_score := st.volume_score
        breakout_score := st.breakout_score
        momentum_score := st.momentum_score
        entry_range_low := entry_price * (99 / 100)
        entry_range_high := entry_price * (103 / 100)
        support_levels := support_levels.take 3 }

/-- The scan result (`scan_time` and `timestamp` are wall-clock presentation
fields outside the frozen-input model and are omitted). -/
structure ScanResult where
  tier : ℕ
  mode : String
  recommendation : String
  risk_level : String
  sector : String
  trades : List Trade
deriving DecidableEq

/-- `AdaptiveScreener._create_result` (the emoji prefix and the brace-free
f-string interpolation of the source's recommendation strings are rendered
with plain concatenation). -/
def _create_result (stocks : List Stock) (tier : ℕ) (sector_name : String) : ScanResult :=
  let trades := stocks.filterMap _create_trade_from_stock
  if tier = 1 then
    { tier := tier, mode := "AGGRESSIVE OPPORTUNITIES"
      recommendation := toString trades.length ++ " high-confidence trades with 15%+ potential found. TRADE NOW!"
      risk_level := "HIGH", sector := sector_name, trades := trades }
  else if tier = 2 then
    { tier := tier, mode := "MODERATE OPPORTUNITIES"
      recommendation := toString trades.length ++ " moderate trades with 8-14% potential. Consider smaller positions or wait for better setups."
      risk_level := "MEDIUM", sector := sector_name, trades := trades }
  else
    { tier := tier, mode := "WEAK MARKET CONDITIONS"
      recommendation := "No stocks meet 8%+ return criteria. HOLD CASH - Wait for better opportunities."
      risk_level := "LOW", sector := sector_name, trades := trades }

/-- `AdaptiveScreener._categorize_and_rank`. -/
def _categorize_and_rank (stocks : List Stock) (sector_name : String) : ScanResult :=
  let sel := categorizeSelect stocks
  _create_result sel.2 sel.1 sector_name

/-- Stages 2–4 of `_scan_symbols`, a pure function of the stage-1 survivors
(the empty-list early exits of the source included). -/
def scanFromStocks (stdFn : ℕ → List ℚ → List (Option ℚ))
    (cands : List Stock) (sector_name : String) : ScanResult :=
  if cands = [] then _create_result [] 3 sector_name
  else
    let scored := _analyze_and_score stdFn cands
    if scored = [] then _create_result [] 3 sector_name
    else _categorize_and_rank (_estimate_returns scored) sector_name

/-- `AdaptiveScreener._scan_symbols` over frozen input: the fetcher `fetch`
stands for the (cached) data source, `c` is the cache state.  The unused
`min_return` parameter of the source is dropped; the wall-clock `scan_time`
is outside the model. -/
def _scan_symbols (stdFn : ℕ → List ℚ → List (Option ℚ))
    (fetch : String → Option StockData) (c : ScreenCache)
    (symbols : List String) (sector_name : String) : ScanResult × ScreenCache :=
  let fr := _fetch_and_filter stdFn fetch c symbols
  (scanFromStocks stdFn fr.1 sector_name, fr.2)

/-- A cache is consistent with the frozen fetcher when every hit returns
exactly what the fetcher would return. -/
def cacheConsistent (fetch : String → Option StockData) (c : ScreenCache) : Prop :=
  ∀ s v, cacheGet c s = some v → fetch s = some v

/-! ### Specification-side definition for the RSI sub-score claim -/

/-- The RSI sub-score exactly as the specification words it: zone points
(50 for RSI in [45,65], else 25 for [35,45) or (65,70]), plus 25 when the
latest RSI exceeds the RSI three positions back (when that value exists),
plus 25 when RSI < 70 (else 10 when RSI < 80), capped at 100. -/
def rsi_score_spec (nbars : ℕ) (rc : List (Option ℚ)) (r : ℚ) : ℚ :=
  min ((if 45 ≤ r ∧ r ≤ 65 then (50 : ℚ)
        else if (35 ≤ r ∧ r < 45) ∨ (65 < r ∧ r ≤ 70) then 25 else 0)
    + (if 3 ≤ nbars then
         match ilocNeg rc 3 with
         | some (some prev) => if prev < r then (25 : ℚ) else 0
         | _ => 0
       else 0)
    + (if r < 70 then (25 : ℚ) else if r < 80 then 10 else 0)) 100

/-! ### Concrete inputs for witnesses and the counterexample -/

/-- A flat, strictly positive 30-bar history. -/
def flatBars30 : List Bar := List.replicate 30 ⟨1, 1, 1, 1⟩

/-- A 30-bar history whose prices are all strictly positive but whose Low
column sits above its High column — allowed by the literal hypothesis of the
non-negativity claim, and the historical 5-day-range signal is negative on
it. -/
def invertedBars30 : List Bar := List.replicate 30 ⟨1, 10, 1, 1⟩

/-- A tiny frame with an RSI column, for the RSI-sub-score witness. -/
def rsiDemoCol : List (Option ℚ) := [some 40, some 50, some 55]

def rsiDemoFrame : Frame :=
  { rawFrame [⟨1, 1, 1, 1⟩, ⟨1, 1, 1, 1⟩, ⟨1, 1, 1, 1⟩] with rsi := some rsiDemoCol }

/-- 15 closes with one down day, for the RSI-bound witness. -/
def rsiDemoPrices : List ℚ := [2, 1, 1, 1, 1, 1, 1, 1, 1, 1, 1, 1, 1, 1, 1]

/-- A fully-populated stock whose pipeline fields are set directly, for the
tiering example (3 Tier-1 candidates plus 1 Tier-2 candidate). -/
def demoStock (nm : String) (ret conf overall : ℚ) : Stock :=
  { stockOfData
      { symbol := nm, name := nm, current_price := 100, sector := "Tech"
        market_cap := 1000000000, volume := 1000000, avg_volume := 1500000
        history := rawFrame [] } with
    overall_score := overall, estimated_return := ret, confidence := conf
    days_to_target := 7 }

def demoA : Stock := demoStock "AAA" 16 80 50
def demoB : Stock := demoStock "BBB" 16 80 70
def demoC : Stock := demoStock "CCC" 16 80 60
def demoD : Stock := demoStock "DDD" 9 65 90

/-! ### Helper lemmas -/

theorem ifq_nonneg {P : Prop} [Decidable P] {a b : ℚ} (ha : 0 ≤ a) (hb : 0 ≤ b) :
    0 ≤ if P then a else b := by
  split <;> assumption

theorem le_foldl_max (a : ℚ) (l : List ℚ) : a ≤ l.foldl max a := by
  induction l generalizing a with
  | nil => exact le_refl a
  | cons x xs ih => exact le_trans (le_max_left a x) (ih (max a x))

theorem mem_le_foldl_max (a : ℚ) (l : List ℚ) : ∀ x ∈ l, x ≤ l.foldl max a := by
  induction l generalizing a with
  | nil => intro x hx; cases hx
  | cons y ys ih =>
    intro x hx
    rcases List.mem_cons.mp hx with h | h
    · subst h
      exact le_trans (le_max_right a x) (le_foldl_max (max a x) ys)
    · exact ih (max a y) x h

theorem foldl_max_mem (a : ℚ) (l : List ℚ) : l.foldl max a = a ∨ l.foldl max a ∈ l := by
  induction l generalizing a with
  | nil => exact Or.inl rfl
  | cons x xs ih =>
    rcases ih (max a x) with h | h
    · rcases max_choice a x with hm | hm
      · exact Or.inl (by rw [List.foldl_cons, h, hm])
      · exact Or.inr (by rw [List.foldl_cons, h, hm]; exact List.mem_cons_self x xs)
    · exact Or.inr (List.mem_cons_of_mem x h)

theorem listMax?_spec {l : List ℚ} {m : ℚ} (h : listMax? l = some m) :
    m ∈ l ∧ ∀ x ∈ l, x ≤ m := by
  cases l with
  | nil => simp [listMax?] at h
  | cons y ys =>
    simp only [listMax?, Option.some.injEq] at h
    subst h
    constructor
    · rcases foldl_max_mem y ys with h | h
      · rw [h]; exact List.mem_cons_self y ys
      · exact List.mem_cons_of_mem y h
    · intro x hx
      rcases List.mem_cons.mp hx with h | h
      · subst h; exact le_foldl_max x ys
      · exact mem_le_foldl_max y ys x h

theorem foldl_min_le (a : ℚ) (l : List ℚ) : l.foldl min a ≤ a := by
  induction l generalizing a with
  | nil => exact le_refl a
  | cons x xs ih => exact le_trans (ih (min a x)) (min_le_left a x)

theorem foldl_min_le_mem (a : ℚ) (l : List ℚ) : ∀ x ∈ l, l.foldl min a ≤ x := by
  induction l generalizing a with
  | nil => intro x hx; cases hx
  | cons y ys ih =>
    intro x hx
    rcases List.mem_cons.mp hx with h | h
    · subst h
      exact le_trans (foldl_min_le (min a x) ys) (min_le_right a x)
    · exact ih (min a y) x h

theorem foldl_min_mem (a : ℚ) (l : List ℚ) : l.foldl min a = a ∨ l.foldl min a ∈ l := by
  induction l generalizing a with
  | nil => exact Or.inl rfl
  | cons x xs ih =>
    rcases ih (min a x) with h | h
    · rcases min_choice a x with hm | hm
      · exact Or.inl (by rw [List.foldl_cons, h, hm])
      · exact Or.inr (by rw [List.foldl_cons, h, hm]; exact List.mem_cons_self x xs)
    · exact Or.inr (List.mem_cons_of_mem x h)

theorem listMin?_spec {l : List ℚ} {m : ℚ} (h : listMin? l = some m) :
    m ∈ l ∧ ∀ x ∈ l, m ≤ x := by
  cases l with
  | nil => simp [listMin?] at h
  | cons y ys =>
    simp only [listMin?, Option.some.injEq] at h
    subst h
    constructor
    · rcases foldl_min_mem y ys with h | h
      · rw [h]; exact List.mem_cons_self y ys
      · exact List.mem_cons_of_mem y h
    · intro x hx
      rcases List.mem_cons.mp hx with h | h
      · subst h; exact foldl_min_le x ys
      · exact foldl_min_le_mem y ys x h

theorem listMax?_isSome {l : List ℚ} (h : l ≠ []) : ∃ m, listMax? l = some m := by
  cases l with
  | nil => exact absurd rfl h
  | cons y ys => exact ⟨ys.foldl max y, rfl⟩

theorem listMin?_isSome {l : List ℚ} (h : l ≠ []) : ∃ m, listMin? l = some m := by
  cases l with
  | nil => exact absurd rfl h
  | cons y ys => exact ⟨ys.foldl min y, rfl⟩

theorem meanQ_nonneg {l : List ℚ} (h : ∀ x ∈ l, 0 ≤ x) : 0 ≤ meanQ l := by
  unfold meanQ
  exact div_nonneg (List.sum_nonneg h) (by positivity)

theorem filter_orderedInsert {α : Type} (p : α → Bool) (r : α → α → Prop) [DecidableRel r]
    (x : α) (hp : ∀ b, p x = true → p b = true → r x b) :
    ∀ l : List α, (List.orderedInsert r x l).filter p =
      if p x then x :: l.filter p else l.filter p := by
  intro l
  induction l with
  | nil =>
    simp only [List.orderedInsert, List.filter]
    cases hpx : p x <;> simp [hpx]
  | cons y ys ih =>
    simp only [List.orderedInsert]
    by_cases hr : r x y
    · rw [if_pos hr]
      cases hpx : p x <;> simp [List.filter, hpx]
    · rw [if_neg hr]
      cases hpy : p y with
      | true =>
        cases hpx : p x with
        | true => exact absurd (hp y hpx hpy) hr
        | false =>
          simp only [List.filter, hpy, ih, hpx]
          simp
      | false =>
        simp only [List.filter, hpy, ih]

theorem filter_insertionSort {α : Type} (p : α → Bool) (r : α → α → Prop) [DecidableRel r]
    (hp : ∀ a b, p a = true → p b = true → r a b) (l : List α) :
    (List.insertionSort r l).filter p = l.filter p := by
  induction l with
  | nil => rfl
  | cons a as ih =>
    simp only [List.insertionSort]
    rw [filter_orderedInsert p r a (fun b hb1 hb2 => hp a b hb1 hb2)]
    cases hpa : p a <;> simp [List.filter, hpa, ih]

theorem sortByScoreDesc_sorted (l : List Stock) :
    (sortByScoreDesc l).Sorted (fun a b => b.overall_score ≤ a.overall_score) := by
  haveI h1 : IsTotal Stock (fun a b => b.overall_score ≤ a.overall_score) :=
    ⟨fun a b => le_total b.overall_score a.overall_score⟩
  haveI h2 : IsTrans Stock (fun a b => b.overall_score ≤ a.overall_score) :=
    ⟨fun _ _ _ hab hbc => le_trans hbc hab⟩
  exact List.sorted_insertionSort _ l

theorem sortByScoreDesc_perm (l : List Stock) : List.Perm (sortByScoreDesc l) l :=
  List.perm_insertionSort _ l

theorem sortByScoreDesc_stable (l : List Stock) (k : ℚ) :
    (sortByScoreDesc l).filter (fun s => decide (s.overall_score = k))
      = l.filter (fun s => decide (s.overall_score = k)) := by
  apply filter_insertionSort
  intro a b ha hb
  simp only [decide_eq_true_eq] at ha hb
  rw [ha, hb]

theorem macd_score_bounds (df : Frame) :
    0 ≤ calculate_macd_score df ∧ calculate_macd_score df ≤ 100 := by
  rcases hm : df.macd with _ | mc <;> simp only [calculate_macd_score, hm]
  · norm_num
  · refine ⟨le_min ?_ (by norm_num), min_le_right _ _⟩
    refine add_nonneg (add_nonneg (add_nonneg ?_ ?_) ?_) ?_
    · exact ifq_nonneg (by norm_num) (le_refl 0)
    · exact ifq_nonneg (by norm_num) (le_refl 0)
    · exact ifq_nonneg (by norm_num) (le_refl 0)
    · rcases lastEntry mc with _ | v
      · exact le_refl 0
      · simp only
        by_cases hv : 0 < v
        · rw [if_pos hv]
          rcases seriesMax? (tailN 20 mc) with _ | mx <;>
            rcases seriesMin? (tailN 20 mc) with _ | mn <;> simp only
          any_goals exact le_refl 0
          by_cases hrange : 0 < mx - mn
          · rw [if_pos hrange]
            refine le_min ?_ (by norm_num)
            have : 0 ≤ v / (mx - mn) := le_of_lt (div_pos hv hrange)
            linarith
          · rw [if_neg hrange]
        · rw [if_neg hv]

theorem rsi_score_bounds (df : Frame) :
    0 ≤ calculate_rsi_score df ∧ calculate_rsi_score df ≤ 100 := by
  rcases hm : df.rsi with _ | rc <;> simp only [calculate_rsi_score, hm]
  · norm_num
  · rcases lastEntry rc with _ | r <;> simp only
    · norm_num
    · refine ⟨le_min ?_ (by norm_num), min_le_right _ _⟩
      refine add_nonneg (add_nonneg ?_ ?_) ?_
      · exact ifq_nonneg (by norm_num) (ifq_nonneg (by norm_num) (le_refl 0))
      · refine ifq_nonneg ?_ (le_refl 0)
        rcases ilocNeg rc 3 with _ | p
        · exact le_refl 0
        · rcases p with _ | prev
          · exact le_refl 0
          · exact ifq_nonneg (by norm_num) (le_refl 0)
      · exact ifq_nonneg (by norm_num) (ifq_nonneg (by norm_num) (le_refl 0))

theorem volume_score_bounds (df : Frame) :
    0 ≤ calculate_volume_score df ∧ calculate_volume_score df ≤ 100 := by
  rcases hm : df.volumeSma20 with _ | vc <;> simp only [calculate_volume_score, hm]
  · norm_num
  · rcases (df.bars.map Bar.volume).getLast? with _ | cv <;>
      rcases lastEntry vc with _ | av <;> simp only
    any_goals norm_num
    by_cases hz : av = 0
    · rw [if_pos hz]; norm_num
    · rw [if_neg hz]
      refine ⟨le_min ?_ (by norm_num), min_le_right _ _⟩
      refine add_nonneg (add_nonneg ?_ ?_) ?_
      · exact ifq_nonneg (by norm_num) (ifq_nonneg (by norm_num) (ifq_nonneg (by norm_num) (le_refl 0)))
      · exact ifq_nonneg (ifq_nonneg (by norm_num) (ifq_nonneg (by norm_num) (le_refl 0))) (le_refl 0)
      · exact ifq_nonneg (ifq_nonneg (by norm_num) (ifq_nonneg (by norm_num) (le_refl 0))) (le_refl 0)

theorem breakout_score_bounds (df : Frame) (cp : ℚ) :
    0 ≤ calculate_breakout_score df cp ∧ calculate_breakout_score df cp ≤ 100 := by
  simp only [calculate_breakout_score]
  refine ⟨le_min ?_ (by norm_num), min_le_right _ _⟩
  refine add_nonneg (add_nonneg (add_nonneg ?_ ?_) ?_) ?_
  · rcases hx : listMax? ((tailN 20 df.bars).map Bar.high) with _ | h20 <;> simp only [hx]
    · exact le_refl (0 : ℚ)
    · exact ifq_nonneg (by norm_num) (ifq_nonneg (by norm_num) (le_refl 0))
  · rcases h1 : df.sma20 with _ | c <;> simp only [h1]
    · exact le_refl (0 : ℚ)
    · rcases h2 : lastEntry c with _ | v <;> simp only [h2]
      · exact le_refl (0 : ℚ)
      · exact ifq_nonneg (by norm_num) (le_refl 0)
  · rcases h1 : df.sma50 with _ | c <;> simp only [h1]
    · exact le_refl (0 : ℚ)
    · rcases h2 : lastEntry c with _ | v <;> simp only [h2]
      · exact le_refl (0 : ℚ)
      · exact ifq_nonneg (by norm_num) (le_refl 0)
  · rcases h1 : (find_support_resistance df 20).support_levels with _ | ⟨ns, rest⟩ <;>
      simp only [h1]
    · exact le_refl (0 : ℚ)
    · exact ifq_nonneg (by norm_num) (ifq_nonneg (by norm_num) (ifq_nonneg (by norm_num) (le_refl 0)))

theorem momentum_score_bounds (df : Frame) :
    0 ≤ calculate_momentum_score df ∧ calculate_momentum_score df ≤ 100 := by
  simp only [calculate_momentum_score]
  refine ⟨le_min ?_ (by norm_num), min_le_right _ _⟩
  refine add_nonneg (add_nonneg ?_ ?_) ?_
  · exact ifq_nonneg (by norm_num) (ifq_nonneg (by norm_num) (ifq_nonneg (by norm_num) (le_refl 0)))
  · exact ifq_nonneg (by norm_num) (ifq_nonneg (by norm_num) (le_refl 0))
  · refine ifq_nonneg ?_ (le_refl 0)
    exact ifq_nonneg (by norm_num) (ifq_nonneg (by norm_num) (le_refl 0))

theorem technical_strength_bounds (df : Frame) :
    0 ≤ calculate_technical_strength df ∧ calculate_technical_strength df ≤ 40 := by
  simp only [calculate_technical_strength]
  have h1 : ∀ q : ℚ, (0 ≤ q ∧ q ≤ 15) → ∀ r : ℚ, (0 ≤ r ∧ r ≤ 15) →
      ∀ t : ℚ, (0 ≤ t ∧ t ≤ 10) → 0 ≤ q + r + t ∧ q + r + t ≤ 40 := by
    intro q hq r hr t ht
    exact ⟨by linarith [hq.1, hr.1, ht.1], by linarith [hq.2, hr.2, ht.2]⟩
  refine h1 _ ?_ _ ?_ _ ?_
  · rcases hm : df.macd with _ | mc <;> rcases hs : df.macdSignal with _ | msc <;>
      simp only [hm, hs]
    any_goals norm_num
    rcases h2 : lastEntry mc with _ | m <;> rcases h3 : lastEntry msc with _ | s <;>
      simp only [h2, h3]
    any_goals norm_num
    split <;> norm_num
  · rcases hr : df.rsi with _ | rc <;> simp only [hr]
    · norm_num
    · rcases h2 : lastEntry rc with _ | r <;> simp only [h2]
      · norm_num
      · split <;> norm_num
  · rcases hr : df.sma20 with _ | sc <;> simp only [hr]
    · norm_num
    · rcases h2 : lastEntry sc with _ | s <;>
        rcases h3 : (df.bars.map Bar.close).getLast? with _ | c <;> simp only [h2, h3]
      any_goals norm_num
      split <;> norm_num

theorem volume_confidence_bounds (df : Frame) :
    0 ≤ calculate_volume_confidence df ∧ calculate_volume_confidence df ≤ 30 := by
  rcases hm : df.volumeSma20 with _ | vc <;> simp only [calculate_volume_confidence, hm]
  · norm_num
  · rcases h1 : (df.bars.map Bar.volume).getLast? with _ | cv <;>
      rcases h2 : lastEntry vc with _ | av <;> simp only [h1, h2]
    any_goals norm_num
    by_cases hz : av = 0
    · rw [if_pos hz]; norm_num
    · rw [if_neg hz]
      constructor
      · refine add_nonneg ?_ ?_
        · exact ifq_nonneg (by norm_num) (ifq_nonneg (by norm_num) (le_refl 0))
        · exact ifq_nonneg (ifq_nonneg (by norm_num) (le_refl 0)) (le_refl 0)
      · have hb1 : (if 3 / 2 < cv / av then (20 : ℚ) else if 1 < cv / av then 10 else 0) ≤ 20 := by
          split
          · exact le_refl 20
          · split <;> norm_num
        have hb2 : (if 3 ≤ (tailN 5 (df.bars.map Bar.volume)).length then
            if (ilocNeg (tailN 5 (df.bars.map Bar.volume)) 3).getD 0
                < (ilocNeg (tailN 5 (df.bars.map Bar.volume)) 1).getD 0 then (10 : ℚ) else 0
          else 0) ≤ 10 := by
          split
          · split <;> norm_num
          · norm_num
        linarith

theorem confidence_score_bounds (h t m : ℚ) (df : Frame) :
    0 ≤ calculate_confidence_score h t m df ∧ calculate_confidence_score h t m df ≤ 100 := by
  simp only [calculate_confidence_score]
  split
  · norm_num
  · refine ⟨le_min ?_ (by norm_num), min_le_right _ _⟩
    have ha : (0 : ℚ) ≤ (if (if 0 < meanQ [h, t, m] then varQ [h, t, m] / meanQ [h, t, m] ^ 2
        else 1) < 1 / 10 then (30 : ℚ)
      else if (if 0 < meanQ [h, t, m] then varQ [h, t, m] / meanQ [h, t, m] ^ 2 else 1) < 3 / 10
        then 20 else 10) := by
      exact ifq_nonneg (by norm_num) (ifq_nonneg (by norm_num) (by norm_num))
    have hts := (technical_strength_bounds df).1
    have hvc := (volume_confidence_bounds df).1
    linarith

theorem days_to_target_bounds (df : Frame) (t : ℚ) :
    5 ≤ estimate_days_to_target df t ∧ estimate_days_to_target df t ≤ 10 := by
  simp only [estimate_days_to_target]
  split
  · norm_num
  · split
    · norm_num
    · constructor
      · exact le_max_left 5 _
      · exact max_le (by norm_num) (min_le_left 10 _)

theorem getElem?_zipWith_some {α β γ : Type} {f : α → β → γ} :
    ∀ (as : List α) (bs : List β) (i : ℕ) (c : γ),
      (List.zipWith f as bs)[i]? = some c →
      ∃ a b, as[i]? = some a ∧ bs[i]? = some b ∧ c = f a b := by
  intro as
  induction as with
  | nil => intro bs i c h; simp at h
  | cons a as ih =>
    intro bs i c h
    cases bs with
    | nil => simp at h
    | cons b bs =>
      cases i with
      | zero =>
        simp only [List.zipWith_cons_cons, List.getElem?_cons_zero, Option.some.injEq] at h
        exact ⟨a, b, by simp, by simp, h.symm⟩
      | succ n =>
        simp only [List.zipWith_cons_cons, List.getElem?_cons_succ] at h
        obtain ⟨x, y, hx, hy, hc⟩ := ih bs n c h
        exact ⟨x, y, by simpa using hx, by simpa using hy, hc⟩

theorem rollingMean_getElem {w : ℕ} {l : List ℚ} {i : ℕ} {v : ℚ}
    (h : (rollingMean w l)[i]? = some (some v)) :
    v = meanQ ((l.take (i + 1)).drop (i + 1 - w)) := by
  simp only [rollingMean, List.getElem?_map] at h
  by_cases hi : i < l.length
  · rw [List.getElem?_range hi] at h
    rw [show ∀ (f : ℕ → Option ℚ) (a : ℕ), Option.map f (some a) = some (f a) from fun _ _ => rfl] at h
    rw [Option.some.injEq] at h
    by_cases hw : i + 1 < w
    · rw [if_pos hw] at h; cases h
    · rw [if_neg hw] at h
      exact (Option.some.injEq _ _ ▸ h).symm
  · rw [List.getElem?_eq_none (by simpa using not_lt.mp hi)] at h
    simp at h

theorem gainSeries_nonneg (prices : List ℚ) : ∀ x ∈ gainSeries prices, 0 ≤ x := by
  intro x hx
  simp only [gainSeries, List.mem_map] at hx
  obtain ⟨d, _, hd⟩ := hx
  subst hd
  rcases d with _ | y
  · exact le_refl 0
  · simp only
    split <;> [linarith; exact le_refl 0]

theorem lossSeries_nonneg (prices : List ℚ) : ∀ x ∈ lossSeries prices, 0 ≤ x := by
  intro x hx
  simp only [lossSeries, List.mem_map] at hx
  obtain ⟨d, _, hd⟩ := hx
  subst hd
  rcases d with _ | y
  · exact le_refl 0
  · simp only
    split <;> [linarith; exact le_refl 0]

theorem rangePct5_nonneg (w : List Bar) (hne : w ≠ [])
    (hb : ∀ b ∈ w, 0 < b.low ∧ b.low ≤ b.high) : 0 ≤ rangePct5 w := by
  obtain ⟨mx, hmx⟩ := listMax?_isSome (l := w.map Bar.high) (by simpa using hne)
  obtain ⟨mn, hmn⟩ := listMin?_isSome (l := w.map Bar.low) (by simpa using hne)
  simp only [rangePct5, hmx, hmn, Option.getD_some]
  obtain ⟨hmx_mem, hmx_ub⟩ := listMax?_spec hmx
  obtain ⟨hmn_mem, hmn_lb⟩ := listMin?_spec hmn
  obtain ⟨b, hbw, hb_eq⟩ := List.mem_map.mp hmn_mem
  have h1 : 0 < mn := hb_eq ▸ (hb b hbw).1
  have h2 : mn ≤ mx := by
    have hhigh : b.high ≤ mx := hmx_ub _ (List.mem_map_of_mem Bar.high hbw)
    have hlow : b.low ≤ b.high := (hb b hbw).2
    rw [← hb_eq]
    linarith
  have hmid : 0 < (mx + mn) / 2 := by linarith
  have hdiv : 0 ≤ (mx - mn) / ((mx + mn) / 2) := div_nonneg (by linarith) (le_of_lt hmid)
  have := mul_nonneg hdiv (by norm_num : (0 : ℚ) ≤ 100)
  linarith

theorem historical_volatility_nonneg (df : Frame)
    (hb : ∀ b ∈ df.bars, 0 < b.low ∧ b.low ≤ b.high) :
    0 ≤ calculate_historical_volatility df 20 := by
  simp only [calculate_historical_volatility]
  split
  · exact le_refl 0
  · apply meanQ_nonneg
    intro x hx
    simp only [List.mem_map, List.mem_range] at hx
    obtain ⟨i, hi, hx_eq⟩ := hx
    subst hx_eq
    apply rangePct5_nonneg
    · have hlen : (((tailN 20 df.bars).drop i).take 5).length = 5 := by
        simp only [List.length_take, List.length_drop]
        omega
      intro hcon
      rw [hcon] at hlen
      simp at hlen
    · intro b hbw
      have hb1 : b ∈ (tailN 20 df.bars).drop i := List.mem_of_mem_take hbw
      have hb2 : b ∈ tailN 20 df.bars := List.mem_of_mem_drop hb1
      have hb3 : b ∈ df.bars := List.mem_of_mem_drop hb2
      exact hb b hb3

theorem technical_target_nonneg (df : Frame) (cp : ℚ) (hcp : 0 < cp) :
    0 ≤ calculate_technical_target df cp := by
  simp only [calculate_technical_target]
  split
  · exact le_refl 0
  · rename_i hres
    rw [not_le] at hres
    have hsub : (0 : ℚ) ≤ _ - cp := sub_nonneg.mpr (le_of_lt hres)
    exact mul_nonneg (div_nonneg hsub (le_of_lt hcp)) (by norm_num)

theorem momentum_projection_nonneg (df : Frame) : 0 ≤ calculate_momentum_projection df := by
  simp only [calculate_momentum_projection]
  split
  · exact le_refl 0
  · rename_i h
    rw [not_le] at h
    linarith

theorem cacheGet_cacheSet (c : ScreenCache) (k : String) (v : StockData) (s : String) :
    cacheGet (cacheSet c k v) s = if k = s then some v else cacheGet c s := by
  simp only [cacheGet, cacheSet, List.find?_cons]
  by_cases h : k = s
  · subst h; simp
  · have hb : (k == s) = false := beq_eq_false_iff_ne.mpr h
    rw [if_neg h]
    simp only [hb]

theorem fetch_filter_consistent (stdFn : ℕ → List ℚ → List (Option ℚ))
    (fetch : String → Option StockData) :
    ∀ (syms : List String) (c : ScreenCache), cacheConsistent fetch c →
      (_fetch_and_filter stdFn fetch c syms).1 = fetchPure stdFn fetch syms ∧
      cacheConsistent fetch (_fetch_and_filter stdFn fetch c syms).2 := by
  intro syms
  induction syms with
  | nil => intro c hc; exact ⟨rfl, hc⟩
  | cons sym rest ih =>
    intro c hc
    simp only [_fetch_and_filter, fetchPure]
    cases hget : cacheGet c sym with
    | some d =>
      have hf : fetch sym = some d := hc sym d hget
      rw [hf]
      dsimp only
      obtain ⟨h1, h2⟩ := ih c hc
      exact ⟨by rw [h1], h2⟩
    | none =>
      cases hfe : fetch sym with
      | some d =>
        have hc2 : cacheConsistent fetch (cacheSet c sym d) := by
          intro s v hv
          rw [cacheGet_cacheSet] at hv
          by_cases hk : sym = s
          · rw [if_pos hk] at hv
            cases hv
            rw [← hk]
            exact hfe
          · rw [if_neg hk] at hv
            exact hc s v hv
        obtain ⟨h1, h2⟩ := ih (cacheSet c sym d) hc2
        dsimp only
        exact ⟨by rw [h1], h2⟩
      | none =>
        dsimp only
        exact ih c hc

/-! ### Claim theorems -/

/-- C4: with fewer than 50 bars, `calculate_all_indicators` returns the frame
unchanged (same bars, same values), and on a raw history none of the
indicator columns (RSI, MACD, MACD signal, MACD histogram, SMA-20, SMA-50,
Volume-SMA-20, ATR, Bollinger bands) is added. -/
theorem indicators_short_history_unchanged (stdFn : ℕ → List ℚ → List (Option ℚ))
    (hist : Frame) (bars : List Bar)
    (hh : hist.bars.length < 50) (hb : bars.length < 50) :
    calculate_all_indicators stdFn hist = hist ∧
    ((calculate_all_indicators stdFn (rawFrame bars)).bars = bars ∧
     (calculate_all_indicators stdFn (rawFrame bars)).rsi = none ∧
     (calculate_all_indicators stdFn (rawFrame bars)).macd = none ∧
     (calculate_all_indicators stdFn (rawFrame bars)).macdSignal = none ∧
     (calculate_all_indicators stdFn (rawFrame bars)).macdHist = none ∧
     (calculate_all_indicators stdFn (rawFrame bars)).sma20 = none ∧
     (calculate_all_indicators stdFn (rawFrame bars)).sma50 = none ∧
     (calculate_all_indicators stdFn (rawFrame bars)).volumeSma20 = none ∧
     (calculate_all_indicators stdFn (rawFrame bars)).atr = none ∧
     (calculate_all_indicators stdFn (rawFrame bars)).bbUpper = none ∧
     (calculate_all_indicators stdFn (rawFrame bars)).bbMiddle = none ∧
     (calculate_all_indicators stdFn (rawFrame bars)).bbLower = none) := by
  have hgen : ∀ f : Frame, f.bars.length < 50 → calculate_all_indicators stdFn f = f := by
    intro f hf
    simp only [calculate_all_indicators]
    rw [if_pos hf]
  have hraw : calculate_all_indicators stdFn (rawFrame bars) = rawFrame bars :=
    hgen _ (by simpa [rawFrame] using hb)
  refine ⟨hgen hist hh, ?_⟩
  rw [hraw]
  exact ⟨rfl, rfl, rfl, rfl, rfl, rfl, rfl, rfl, rfl, rfl, rfl, rfl⟩

theorem indicators_short_history_unchanged_witness :
    calculate_all_indicators (fun _ _ => []) (rawFrame []) = rawFrame [] :=
  (indicators_short_history_unchanged (fun _ _ => []) (rawFrame []) []
    (by decide) (by decide)).1

/-- C5: with fewer than 30 bars the return estimator degrades to the triple
`(0.0, 0.0, 10)` (and, being a total function here, raises nothing). -/
theorem estimator_insufficient_history (df : Frame) (cp : ℚ)
    (h : df.bars.length < 30) :
    estimate_return_potential cp df = (0, 0, 10) := by
  simp only [estimate_return_potential]
  rw [if_pos h]

theorem estimator_insufficient_history_witness :
    estimate_return_potential 100 (rawFrame []) = (0, 0, 10) :=
  estimator_insufficient_history (rawFrame []) 100 (by decide)

/-- C6: the support-adjusted stop never sits below the default stop
`entry × (1 − max_loss_pct/100)`; it equals the default stop when no support
level lies strictly below the entry, and equals
`max(default_stop, nearest_support × 0.99)` when one does (the nearest
support being the largest level strictly below the entry). -/
theorem adjusted_stop_loss_props (entry_price max_loss_percent : ℚ)
    (support_levels : List ℚ) :
    calculate_stop_loss entry_price max_loss_percent
        = entry_price * (1 - max_loss_percent / 100) ∧
    calculate_stop_loss entry_price max_loss_percent
        ≤ calculate_adjusted_stop_loss entry_price support_levels max_loss_percent ∧
    (support_levels.filter (fun s => decide (s < entry_price)) = [] →
      calculate_adjusted_stop_loss entry_price support_levels max_loss_percent
        = calculate_stop_loss entry_price max_loss_percent) ∧
    (∀ m, listMax? (support_levels.filter (fun s => decide (s < entry_price))) = some m →
      calculate_adjusted_stop_loss entry_price support_levels max_loss_percent
        = max (calculate_stop_loss entry_price max_loss_percent) (m * (99 / 100))) := by
  refine ⟨rfl, ?_, ?_, ?_⟩
  · cases support_levels with
    | nil => exact le_refl _
    | cons a rest =>
      simp only [calculate_adjusted_stop_loss]
      cases hm : listMax? ((a :: rest).filter (fun s => decide (s < entry_price))) with
      | none => exact le_refl _
      | some ns =>
        dsimp only
        split
        · exact le_refl _
        · rename_i hlt
          exact le_of_not_lt hlt
  · intro hemp
    cases support_levels with
    | nil => rfl
    | cons a rest =>
      simp only [calculate_adjusted_stop_loss]
      rw [hemp]
      rfl
  · intro m hm
    cases support_levels with
    | nil => simp [listMax?] at hm
    | cons a rest =>
      simp only [calculate_adjusted_stop_loss]
      rw [hm]
      dsimp only
      split
      · rename_i hlt
        exact (max_eq_left (le_of_lt hlt)).symm
      · rename_i hlt
        exact (max_eq_right (le_of_not_lt hlt)).symm

theorem adjusted_stop_loss_props_witness :
    calculate_stop_loss 100 10 ≤ calculate_adjusted_stop_loss 100 [95, 80] 10 ∧
    calculate_adjusted_stop_loss 100 [95, 80] 10
      = max (calculate_stop_loss 100 10) (95 * (99 / 100)) ∧
    calculate_adjusted_stop_loss 100 [120] 10 = calculate_stop_loss 100 10 := by
  have h1 := adjusted_stop_loss_props 100 10 [95, 80]
  have h2 := adjusted_stop_loss_props 100 10 [120]
  exact ⟨h1.2.1, h1.2.2.2 95 (by decide), h2.2.2.1 (by decide)⟩

/-- C2: each of the five sub-scores lies in [0,100]; the default weights
0.25/0.20/0.20/0.20/0.15 sum to 1; `overall` is exactly their weighted sum
and also lies in [0,100]. -/
theorem score_vector_bounded (df : Frame) (cp : ℚ) :
    (0 ≤ (calculate_overall_score cp df).macd_score
      ∧ (calculate_overall_score cp df).macd_score ≤ 100) ∧
    (0 ≤ (calculate_overall_score cp df).rsi_score
      ∧ (calculate_overall_score cp df).rsi_score ≤ 100) ∧
    (0 ≤ (calculate_overall_score cp df).volume_score
      ∧ (calculate_overall_score cp df).volume_score ≤ 100) ∧
    (0 ≤ (calculate_overall_score cp df).breakout_score
      ∧ (calculate_overall_score cp df).breakout_score ≤ 100) ∧
    (0 ≤ (calculate_overall_score cp df).momentum_score
      ∧ (calculate_overall_score cp df).momentum_score ≤ 100) ∧
    (MACD_WEIGHT + RSI_WEIGHT + VOLUME_WEIGHT + BREAKOUT_WEIGHT + MOMENTUM_WEIGHT = 1) ∧
    ((calculate_overall_score cp df).overall_score
      = (calculate_overall_score cp df).macd_score * MACD_WEIGHT
        + (calculate_overall_score cp df).rsi_score * RSI_WEIGHT
        + (calculate_overall_score cp df).volume_score * VOLUME_WEIGHT
        + (calculate_overall_score cp df).breakout_score * BREAKOUT_WEIGHT
        + (calculate_overall_score cp df).momentum_score * MOMENTUM_WEIGHT) ∧
    (0 ≤ (calculate_overall_score cp df).overall_score
      ∧ (calculate_overall_score cp df).overall_score ≤ 100) := by
  have hm := macd_score_bounds df
  have hr := rsi_score_bounds df
  have hv := volume_score_bounds df
  have hb := breakout_score_bounds df cp
  have hmo := momentum_score_bounds df
  simp only [calculate_overall_score]
  refine ⟨hm, hr, hv, hb, hmo,
    by norm_num [MACD_WEIGHT, RSI_WEIGHT, VOLUME_WEIGHT, BREAKOUT_WEIGHT, MOMENTUM_WEIGHT],
    by trivial, ?_, ?_⟩
  · simp only [MACD_WEIGHT, RSI_WEIGHT, VOLUME_WEIGHT, BREAKOUT_WEIGHT, MOMENTUM_WEIGHT]
    have := hm.1; have := hr.1; have := hv.1; have := hb.1; have := hmo.1
    linarith
  · simp only [MACD_WEIGHT, RSI_WEIGHT, VOLUME_WEIGHT, BREAKOUT_WEIGHT, MOMENTUM_WEIGHT]
    have := hm.2; have := hr.2; have := hv.2; have := hb.2; have := hmo.2
    linarith

/-- C3: the confidence component lies in [0,100]; the days-to-target
component is an integer in [5,10]; the degraded paths give 10 (fewer than 30
bars), 7 (no computable daily returns), 10 (non-positive average daily
return), and otherwise the truncation of target over average daily return
clamped into [5,10]. -/
theorem return_estimate_bounds (df : Frame) (cp : ℚ) :
    (0 ≤ (estimate_return_potential cp df).2.1
      ∧ (estimate_return_potential cp df).2.1 ≤ 100) ∧
    (5 ≤ (estimate_return_potential cp df).2.2
      ∧ (estimate_return_potential cp df).2.2 ≤ 10) ∧
    (df.bars.length < 30 → (estimate_return_potential cp df).2.2 = 10) ∧
    (∀ t : ℚ,
      (pctChangeDropna (tailN 10 (df.bars.map Bar.close)) = [] →
        estimate_days_to_target df t = 7) ∧
      (pctChangeDropna (tailN 10 (df.bars.map Bar.close)) ≠ [] →
        meanQ (pctChangeDropna (tailN 10 (df.bars.map Bar.close))) * 100 ≤ 0 →
        estimate_days_to_target df t = 10) ∧
      (pctChangeDropna (tailN 10 (df.bars.map Bar.close)) ≠ [] →
        0 < meanQ (pctChangeDropna (tailN 10 (df.bars.map Bar.close))) * 100 →
        estimate_days_to_target df t
          = max 5 (min 10 (truncQ (t /
              (meanQ (pctChangeDropna (tailN 10 (df.bars.map Bar.close))) * 100)))))) := by
  refine ⟨?_, ?_, ?_, ?_⟩
  · simp only [estimate_return_potential]
    split
    · norm_num
    · exact confidence_score_bounds _ _ _ df
  · simp only [estimate_return_potential]
    split
    · norm_num
    · exact days_to_target_bounds df _
  · intro h
    simp only [estimate_return_potential]
    rw [if_pos h]
  · intro t
    refine ⟨?_, ?_, ?_⟩
    · intro h
      simp only [estimate_days_to_target]
      rw [if_pos h]
    · intro h1 h2
      simp only [estimate_days_to_target]
      rw [if_neg h1, if_pos h2]
    · intro h1 h2
      simp only [estimate_days_to_target]
      rw [if_neg h1, if_neg (not_le.mpr h2)]

theorem return_estimate_bounds_witness :
    ((rawFrame []).bars.length < 30
      ∧ (estimate_return_potential 50 (rawFrame [])).2.2 = 10) ∧
    (pctChangeDropna (tailN 10 ((rawFrame []).bars.map Bar.close)) = []
      ∧ estimate_days_to_target (rawFrame []) 5 = 7) := by
  have h := return_estimate_bounds (rawFrame []) 50
  exact ⟨⟨by decide, h.2.2.1 (by decide)⟩, ⟨by decide, ((h.2.2.2 5).1) (by decide)⟩⟩

/-- C7: whenever the latest RSI value is defined, the RSI sub-score equals
the specification formula: zone points (50 for [45,65], else 25 for
[35,45) ∪ (65,70]), plus 25 when the latest RSI exceeds the RSI three
positions back (when defined), plus 25 when RSI < 70 (else 10 when
RSI < 80), capped at 100. -/
theorem rsi_score_matches_spec (df : Frame) (rc : List (Option ℚ)) (r : ℚ)
    (hcol : df.rsi = some rc) (hlast : lastEntry rc = some r) :
    calculate_rsi_score df = rsi_score_spec df.bars.length rc r := by
  simp only [calculate_rsi_score, rsi_score_spec, hcol, hlast]

theorem rsi_score_matches_spec_witness :
    calculate_rsi_score rsiDemoFrame
      = rsi_score_spec rsiDemoFrame.bars.length rsiDemoCol 55 :=
  rsi_score_matches_spec rsiDemoFrame rsiDemoCol 55 (by decide) (by decide)

/-- C8: every defined RSI-14 value whose rolling average loss is positive
lies in [0,100] (the positive-loss hypothesis is the claim's non-zero
denominator condition). -/
theorem rsi_value_bounded (prices : List ℚ) (i : ℕ) (r lossAvg : ℚ)
    (hr : (calculate_rsi 14 prices)[i]? = some (some r))
    (hl : (rollingMean 14 (lossSeries prices))[i]? = some (some lossAvg))
    (hpos : 0 < lossAvg) : 0 ≤ r ∧ r ≤ 100 := by
  obtain ⟨g?, l?, hg, hlo, hc⟩ := getElem?_zipWith_some _ _ i _ hr
  rw [hl] at hlo
  have hleq : l? = some lossAvg := (Option.some.inj hlo).symm
  subst hleq
  rcases g? with _ | g
  · exact absurd hc (by simp)
  · simp only [Option.some.injEq] at hc
    have hmean := rollingMean_getElem hg
    have hg0 : 0 ≤ g := by
      rw [hmean]
      apply meanQ_nonneg
      intro x hx
      have hx1 : x ∈ List.take (i + 1) (gainSeries prices) := List.mem_of_mem_drop hx
      exact gainSeries_nonneg prices x (List.mem_of_mem_take hx1)
    have hdiv : 0 ≤ g / lossAvg := div_nonneg hg0 (le_of_lt hpos)
    have hd : (0 : ℚ) < 1 + g / lossAvg := by linarith
    have h1 : 0 < 100 / (1 + g / lossAvg) := div_pos (by norm_num) hd
    have h2 : 100 / (1 + g / lossAvg) ≤ 100 := by
      rw [div_le_iff₀ hd]
      nlinarith
    constructor
    · rw [hc]; linarith
    · rw [hc]; linarith

theorem rsi_value_bounded_witness : (0 : ℚ) ≤ 0 ∧ (0 : ℚ) ≤ 100 :=
  rsi_value_bounded rsiDemoPrices 14 0 (1 / 14) (by with_unfolding_all decide)
    (by with_unfolding_all decide) (by norm_num)

set_option maxRecDepth 8000 in
/-- C10 counterexample: a 30-bar history whose high, low and close prices are
all strictly positive (high 1, low 10, close 1) — which is all the claim
assumes — yields a strictly negative estimated return at the positive quote
price 1, because the historical 5-day-range signal
`((high − low)/mid) × 100` is negative when a bar's low exceeds its high. -/
theorem estimated_return_negative_counterexample :
    (estimate_return_potential 1 (rawFrame invertedBars30)).1 < 0 := by
  with_unfolding_all decide

/-- C10 amended: for every history of at least 30 bars in which every bar has
`0 < low ≤ high` and a strictly positive close, and for every strictly
positive current price, the estimated return is non-negative (each of the
three combined signals is non-negative and the 0.4/0.3/0.3 weights are
positive). -/
theorem estimated_return_nonneg (df : Frame) (cp : ℚ) (_h30 : 30 ≤ df.bars.length)
    (hcp : 0 < cp)
    (hb : ∀ b ∈ df.bars, 0 < b.low ∧ b.low ≤ b.high ∧ 0 < b.close) :
    0 ≤ (estimate_return_potential cp df).1 := by
  simp only [estimate_return_potential]
  split
  · norm_num
  · have h1 := historical_volatility_nonneg df (fun b hbm => ⟨(hb b hbm).1, (hb b hbm).2.1⟩)
    have h2 := technical_target_nonneg df cp hcp
    have h3 := momentum_projection_nonneg df
    dsimp only
    linarith

theorem estimated_return_nonneg_witness :
    0 ≤ (estimate_return_potential 1 (rawFrame flatBars30)).1 :=
  estimated_return_nonneg (rawFrame flatBars30) 1 (by decide) (by norm_num) (by decide)

theorem sortByScoreDesc_length (l : List Stock) : (sortByScoreDesc l).length = l.length :=
  List.length_insertionSort _ l

/-- C1: for every estimated-candidate list, Tier-1 membership is exactly
`return ≥ 15 ∧ confidence ≥ 75` and Tier-2 membership exactly
`8 ≤ return < 15 ∧ confidence ≥ 60`; each tier is a permutation of its
filter sorted by overall score descending with the stable tie-break (the
candidates of any fixed score keep their scan order); the selection takes
the Tier-1 top 5 when Tier-1 has ≥ 3 members, else the Tier-2 top 5 when
Tier-2 has ≥ 3 members, else the empty Tier 3; and on 3 candidates with
return 16 / confidence 80 plus one with return 9 / confidence 65, Tier-1 is
selected with exactly those 3 sorted by overall score descending. -/
theorem categorize_and_rank_correct :
    (∀ stocks : List Stock,
      (∀ s, s ∈ tier1Filter stocks ↔ s ∈ stocks ∧ TIER_1_MIN_RETURN ≤ s.estimated_return
        ∧ TIER_1_MIN_CONFIDENCE ≤ s.confidence) ∧
      (∀ s, s ∈ tier2Filter stocks ↔ s ∈ stocks ∧ TIER_2_MIN_RETURN ≤ s.estimated_return
        ∧ s.estimated_return < TIER_1_MIN_RETURN ∧ TIER_2_MIN_CONFIDENCE ≤ s.confidence) ∧
      (sortByScoreDesc (tier1Filter stocks)).Sorted
        (fun a b => b.overall_score ≤ a.overall_score) ∧
      (sortByScoreDesc (tier2Filter stocks)).Sorted
        (fun a b => b.overall_score ≤ a.overall_score) ∧
      List.Perm (sortByScoreDesc (tier1Filter stocks)) (tier1Filter stocks) ∧
      List.Perm (sortByScoreDesc (tier2Filter stocks)) (tier2Filter stocks) ∧
      (∀ k : ℚ, (sortByScoreDesc (tier1Filter stocks)).filter
          (fun s => decide (s.overall_score = k))
        = (tier1Filter stocks).filter (fun s => decide (s.overall_score = k))) ∧
      (∀ k : ℚ, (sortByScoreDesc (tier2Filter stocks)).filter
          (fun s => decide (s.overall_score = k))
        = (tier2Filter stocks).filter (fun s => decide (s.overall_score = k))) ∧
      (3 ≤ (tier1Filter stocks).length →
        categorizeSelect stocks = (1, (sortByScoreDesc (tier1Filter stocks)).take 5)) ∧
      ((tier1Filter stocks).length < 3 → 3 ≤ (tier2Filter stocks).length →
        categorizeSelect stocks = (2, (sortByScoreDesc (tier2Filter stocks)).take 5)) ∧
      ((tier1Filter stocks).length < 3 → (tier2Filter stocks).length < 3 →
        categorizeSelect stocks = (3, []))) ∧
    categorizeSelect [demoA, demoB, demoC, demoD] = (1, [demoB, demoC, demoA]) := by
  constructor
  · intro stocks
    refine ⟨?_, ?_, sortByScoreDesc_sorted _, sortByScoreDesc_sorted _,
      sortByScoreDesc_perm _, sortByScoreDesc_perm _,
      fun k => sortByScoreDesc_stable _ k, fun k => sortByScoreDesc_stable _ k, ?_, ?_, ?_⟩
    · intro s
      simp [tier1Filter, List.mem_filter]
    · intro s
      simp [tier2Filter, List.mem_filter, and_assoc]
    · intro h
      simp only [categorizeSelect, sortByScoreDesc_length]
      rw [if_pos h]
    · intro h1 h2
      simp only [categorizeSelect, sortByScoreDesc_length]
      rw [if_neg (not_le.mpr h1), if_pos h2]
    · intro h1 h2
      simp only [categorizeSelect, sortByScoreDesc_length]
      rw [if_neg (not_le.mpr h1), if_neg (not_le.mpr h2)]
  · decide

theorem categorize_and_rank_correct_witness :
    (demoB ∈ tier1Filter [demoA, demoB, demoC, demoD] ↔
      demoB ∈ [demoA, demoB, demoC, demoD]
        ∧ TIER_1_MIN_RETURN ≤ demoB.estimated_return
        ∧ TIER_1_MIN_CONFIDENCE ≤ demoB.confidence) ∧
    categorizeSelect [demoA, demoB, demoC, demoD]
      = (1, (sortByScoreDesc (tier1Filter [demoA, demoB, demoC, demoD])).take 5) := by
  have h := categorize_and_rank_correct
  have hh := h.1 [demoA, demoB, demoC, demoD]
  exact ⟨hh.1 demoB, hh.2.2.2.2.2.2.2.2.1 (by decide)⟩

/-- C9: the scan pipeline is deterministic over frozen input: starting from
any cache consistent with the frozen fetcher (the empty cache included), a
second run — which is served from the cache the first run filled — produces
exactly the same scan result, trade list included, and the cache stays
consistent. -/
theorem scan_twice_identical (stdFn : ℕ → List ℚ → List (Option ℚ))
    (fetch : String → Option StockData) (c : ScreenCache)
    (symbols : List String) (sector : String)
    (hc : cacheConsistent fetch c) :
    (_scan_symbols stdFn fetch ((_scan_symbols stdFn fetch c symbols sector).2)
        symbols sector).1
      = (_scan_symbols stdFn fetch c symbols sector).1 ∧
    cacheConsistent fetch ((_scan_symbols stdFn fetch c symbols sector).2) := by
  obtain ⟨h1, h2⟩ := fetch_filter_consistent stdFn fetch symbols c hc
  obtain ⟨h3, _⟩ := fetch_filter_consistent stdFn fetch symbols
      ((_fetch_and_filter stdFn fetch c symbols).2) h2
  constructor
  · have e1 : (_scan_symbols stdFn fetch c symbols sector).1
        = scanFromStocks stdFn (_fetch_and_filter stdFn fetch c symbols).1 sector := rfl
    have e2 : (_scan_symbols stdFn fetch
          ((_scan_symbols stdFn fetch c symbols sector).2) symbols sector).1
        = scanFromStocks stdFn
            (_fetch_and_filter stdFn fetch
              ((_fetch_and_filter stdFn fetch c symbols).2) symbols).1 sector := rfl
    rw [e1, e2, h1, h3]
  · exact h2

theorem scan_twice_identical_witness :
    (_scan_symbols (fun _ _ => []) (fun _ => none)
        ((_scan_symbols (fun _ _ => []) (fun _ => none) ([] : ScreenCache)
          ["AAA"] "Tech").2) ["AAA"] "Tech").1
      = (_scan_symbols (fun _ _ => []) (fun _ => none) ([] : ScreenCache)
          ["AAA"] "Tech").1 ∧
    cacheConsistent (fun _ => none)
      ((_scan_symbols (fun _ _ => []) (fun _ => none) ([] : ScreenCache)
          ["AAA"] "Tech").2) :=
  scan_twice_identical (fun _ _ => []) (fun _ => none) ([] : ScreenCache) ["AAA"] "Tech"
    (by intro s v hv; simp [cacheGet] at hv)
